import Mathlib

/-!
Shallow embedding of `modules/http_server.go` (the bettercap `http.server`
module): the `HttpServer` record, `NewHttpServer`, `Configure`, `Start`,
`Stop`, `isTLS`, the request handler installed by `Configure`, and the
error check performed by the serve goroutine.

External collaborators (the configuration store's `StringParam` / `IntParam`
reads, `fs.Expand`, `fs.Exists`, `tls.CertConfigFromModule`, `tls.Generate`,
and the result of `http.Server.Shutdown`) are modelled as an environment
record `Env` supplying their results.  Side effects that the claims talk
about (invoking `tls.Generate`, issuing the graceful shutdown request,
cancelling the shutdown context) are recorded in an explicit effect trace.
`log.Info` / `log.Debug` calls to the operator console are elided, except
for the per-request access-log line emitted by the request handler, which is
modelled structurally.
-/

deriving instance DecidableEq for Except

namespace HttpServerModule

/-- Go `error` values distinguished by the module: `session.ErrAlreadyStarted`,
`session.ErrAlreadyStopped`, `http.ErrServerClosed`, and arbitrary other
errors (parameter read failures, expansion failures, generation failures...)
carried as messages. -/
inductive GoError where
  | alreadyStarted
  | alreadyStopped
  | serverClosed
  | other (msg : String)
deriving DecidableEq, Repr

/-- Token standing for the certificate profile returned by
`tls.CertConfigFromModule` (subject / validity / key-size data read from the
configuration store; its contents are outside the source under study and
never inspected by the module, only passed to `tls.Generate`). -/
structure CertConfig where
  tag : Nat
deriving DecidableEq, Repr

/-- Results of the external collaborators for one call into the module:
each `StringParam` / `IntParam` read, `fs.Expand`, `fs.Exists`,
`tls.CertConfigFromModule`, `tls.Generate`, and `http.Server.Shutdown`. -/
structure Env where
  pathParam : Except GoError String
  addressParam : Except GoError String
  portParam : Except GoError Int
  certParam : Except GoError String
  keyParam : Except GoError String
  expand : String → Except GoError String
  fsExists : String → Bool
  certConfig : Except GoError CertConfig
  generate : CertConfig → String → String → Except GoError Unit
  shutdownResult : Option GoError

/-- Side effects recorded by the embedding: a call to
`tls.Generate cfg certPath keyPath`, a call to `http.Server.Shutdown` with a
context carrying the given deadline (graceful shutdown: drains in-flight
connections, carrying the discarded result), and the deferred `cancel()` of
that context. -/
inductive Effect where
  | generate (cfg : CertConfig) (certPath keyPath : String)
  | shutdownGraceful (deadlineSecs : Nat) (result : Option GoError)
  | ctxCancel
deriving DecidableEq, Repr

/-- The `HttpServer` struct.  `running` is the `session.SessionModule`
running flag; `serverHandler` / `serverAddr` are the `Handler` / `Addr`
fields of the embedded `*http.Server` (`none` models a nil handler, and the
handler itself is identified by the root path its file server serves);
`serverGen` models the identity of the `*http.Server` allocation (a freshly
allocated server object would carry a new generation number); `certFile` /
`keyFile` are the module's stored certificate / key path fields. -/
structure HttpServer where
  running : Bool
  serverHandler : Option String
  serverAddr : String
  serverGen : Nat
  certFile : String
  keyFile : String
deriving DecidableEq, Repr

/-- `NewHttpServer`: the only place a `*http.Server` is allocated
(`server: &http.Server{}`), with generation number 0; all fields zero. -/
def NewHttpServer : HttpServer :=
  { running := false
    serverHandler := none
    serverAddr := ""
    serverGen := 0
    certFile := ""
    keyFile := "" }

/-- `httpd.isTLS()`: true iff both stored paths are non-empty. -/
def HttpServer.isTLS (s : HttpServer) : Bool :=
  s.certFile != "" && s.keyFile != ""

/-- `httpd.Configure()`, translated branch for branch from the source.
Returns the Go return value, the module state after the call (mutations made
before an early return are retained, as in the source), and the effect
trace. -/
def Configure (env : Env) (s : HttpServer) :
    Except GoError Unit × HttpServer × List Effect :=
  if s.running then (.error .alreadyStarted, s, [])
  else
    match env.pathParam with
    | .error e => (.error e, s, [])
    | .ok path =>
      -- router := http.NewServeMux(); ...; httpd.server.Handler = router
      let s := { s with serverHandler := some path }
      match env.addressParam with
      | .error e => (.error e, s, [])
      | .ok address =>
        match env.portParam with
        | .error e => (.error e, s, [])
        | .ok port =>
          -- httpd.server.Addr = fmt.Sprintf("%s:%d", address, port)
          let s := { s with serverAddr := address ++ ":" ++ toString port }
          match env.certParam with
          | .error e => (.error e, s, [])
          | .ok certRaw =>
            match env.expand certRaw with
            | .error e => (.error e, s, [])
            | .ok certFile =>
              match env.keyParam with
              | .error e => (.error e, s, [])
              | .ok keyRaw =>
                match env.expand keyRaw with
                | .error e => (.error e, s, [])
                | .ok keyFile =>
                  if certFile != "" && keyFile != "" then
                    if !env.fsExists certFile || !env.fsExists keyFile then
                      match env.certConfig with
                      | .error e => (.error e, s, [])
                      | .ok cfg =>
                        match env.generate cfg certFile keyFile with
                        | .error e =>
                          (.error e, s, [.generate cfg certFile keyFile])
                        | .ok _ =>
                          (.ok (),
                           { s with certFile := certFile, keyFile := keyFile },
                           [.generate cfg certFile keyFile])
                    else
                      (.ok (),
                       { s with certFile := certFile, keyFile := keyFile },
                       [])
                  else
                    (.ok (),
                     { s with certFile := certFile, keyFile := keyFile },
                     [])

/-- Modelled from the spec: `session.SessionModule.SetRunning(true, cb)` is
not under `src/`; per the spec (§4.1) Start atomically transitions
Idle→Running, failing with the already-started condition when the module is
already Running, with the flag flipped before the worker's blocking serve
call is entered. -/
def SetRunningTrue (s : HttpServer) : Except GoError HttpServer :=
  if s.running then .error .alreadyStarted
  else .ok { s with running := true }

/-- The blocking serve call the worker goroutine enters: plain HTTP
(`ListenAndServe`) or TLS (`ListenAndServeTLS(httpd.certFile,
httpd.keyFile)`). -/
inductive ServeCall where
  | listenAndServe (addr : String)
  | listenAndServeTLS (addr certFile keyFile : String)
deriving DecidableEq, Repr

/-- The serve entry point the goroutine spawned by `Start` invokes, chosen
by `httpd.isTLS()` on the module state at that point. -/
def workerServeCall (s : HttpServer) : ServeCall :=
  if s.isTLS then .listenAndServeTLS s.serverAddr s.certFile s.keyFile
  else .listenAndServe s.serverAddr

/-- `httpd.Start()`: `Configure`, then `SetRunning(true, worker)`.  The
fourth component is the serve call the spawned goroutine performs (`none`
when no goroutine was spawned because `Start` failed). -/
def Start (env : Env) (s : HttpServer) :
    Except GoError Unit × HttpServer × List Effect × Option ServeCall :=
  match Configure env s with
  | (.error e, s1, tr) => (.error e, s1, tr, none)
  | (.ok _, s1, tr) =>
    match SetRunningTrue s1 with
    | .error e => (.error e, s1, tr, none)
    | .ok s2 => (.ok (), s2, tr, some (workerServeCall s2))

/-- Outcome of the worker goroutine after the blocking serve call returns:
either it returns normally or it panics with the serve error. -/
inductive ServeOutcome where
  | normal
  | panicked (e : GoError)
deriving DecidableEq, Repr

/-- The error check at the end of the worker goroutine:
`if err != nil && err != http.ErrServerClosed { panic(err) }`
(`none` models a nil error). -/
def serveErrCheck (err : Option GoError) : ServeOutcome :=
  match err with
  | none => .normal
  | some e => if e = .serverClosed then .normal else .panicked e

/-- `httpd.Stop()`: `SetRunning(false, cb)` where `cb` builds a context with
a 60-second timeout, defers its `cancel`, and calls
`httpd.server.Shutdown(ctx)` discarding its result.  The false-direction of
`SetRunning` is modelled from the spec (§4.1): not under `src/`; it rejects
the transition when the module is not Running and otherwise flips the flag
and runs the callback synchronously. -/
def Stop (env : Env) (s : HttpServer) :
    Except GoError Unit × HttpServer × List Effect :=
  if s.running then
    (.ok (), { s with running := false },
     [.shutdownGraceful 60 env.shutdownResult, .ctxCancel])
  else
    (.error .alreadyStopped, s, [])

/-- An HTTP request as seen by the handler closure: `r.RemoteAddr`,
`r.Method`, `r.Host`, `r.URL.Path`. -/
structure Request where
  remoteAddr : String
  method : String
  host : String
  urlPath : String
deriving DecidableEq, Repr

/-- The structured content of the access-log line
`log.Info("(%s) %s %s %s%s", tui.Green("httpd"),
tui.Bold(strings.Split(r.RemoteAddr, ":")[0]), r.Method, r.Host,
r.URL.Path)`: the four request-dependent fields. -/
structure AccessLogLine where
  client : String
  method : String
  host : String
  path : String
deriving DecidableEq, Repr

/-- Events emitted by the request handler: one `log.Info` access line. -/
inductive HEvent where
  | logInfo (line : AccessLogLine)
deriving DecidableEq, Repr

/-- `strings.Split(r.RemoteAddr, ":")[0]`: the text before the first colon
of the remote address (the whole address when it has no colon; the first
element of a split on ":" is exactly the characters preceding the first
occurrence of the separator). -/
def splitFirstColon (addr : String) : String :=
  String.mk (addr.data.takeWhile (fun c => c ≠ ':'))

/-- The catch-all handler closure registered by `Configure` on the serve
mux: logs one access line, then delegates to
`fileServer.ServeHTTP(w, r)` unchanged.  Polymorphic in the response type:
whatever the underlying file server produces is returned untouched. -/
def routerHandle {α : Type} (fileServer : Request → α) (r : Request) :
    List HEvent × α :=
  ([.logInfo
      { client := splitFirstColon r.remoteAddr
        method := r.method
        host := r.host
        path := r.urlPath }],
   fileServer r)

/-- Modelled from the spec: the "host portion" of a client network address,
"stripped of any port suffix" — for a bracketed IPv6 `[h]:p` address the
host `h`, otherwise the text before the last colon when one is present, and
the whole address when none is. -/
def specHostPortion (addr : String) : String :=
  if addr.data.headD ' ' = '[' then
    String.mk ((addr.data.drop 1).takeWhile (fun c => c ≠ ']'))
  else if addr.data.contains ':' then
    String.mk (((addr.data.reverse.dropWhile (fun c => c ≠ ':')).drop 1).reverse)
  else addr

/-! Concrete environments and states used to exercise the model. -/

/-- Environment where every parameter resolves (root ".", address
"192.168.1.2", port 80), path expansion is the identity, no file exists on
disk, certificate-profile read and generation succeed, shutdown succeeds,
and the certificate and key parameters are at their empty defaults. -/
def envPlain : Env :=
  { pathParam := .ok "."
    addressParam := .ok "192.168.1.2"
    portParam := .ok 80
    certParam := .ok ""
    keyParam := .ok ""
    expand := fun p => .ok p
    fsExists := fun _ => false
    certConfig := .ok ⟨0⟩
    generate := fun _ _ _ => .ok ()
    shutdownResult := none }

/-- Same as `envPlain` but with certificate and key paths set (and, per
`envPlain`, absent on disk). -/
def envTLSGen : Env :=
  { envPlain with certParam := .ok "/tmp/c.pem", keyParam := .ok "/tmp/k.pem" }

/-- Same as `envTLSGen` but with both files present on disk. -/
def envTLSExist : Env :=
  { envTLSGen with fsExists := fun _ => true }

/-- Same as `envTLSGen` but with `tls.Generate` failing. -/
def envGenFail : Env :=
  { envTLSGen with generate := fun _ _ _ => .error (.other "gen failed") }

/-- Same as `envPlain` but with the address parameter read failing. -/
def envBadAddress : Env :=
  { envPlain with addressParam := .error (.other "bad address") }

/-- Same as `envPlain` but with `http.Server.Shutdown` returning an error. -/
def envShutdownErr : Env :=
  { envPlain with shutdownResult := some (.other "shutdown failed") }

/-- A module in the Running state with populated fields. -/
def runningState : HttpServer :=
  { running := true
    serverHandler := some "www"
    serverAddr := "10.0.0.1:80"
    serverGen := 0
    certFile := "c.pem"
    keyFile := "k.pem" }

/-- The module state after a successful `Start envPlain NewHttpServer`. -/
def startedPlain : HttpServer :=
  { running := true
    serverHandler := some "."
    serverAddr := "192.168.1.2:80"
    serverGen := 0
    certFile := ""
    keyFile := "" }

/-- The module state after `Configure envBadAddress NewHttpServer` fails:
the handler has already been installed. -/
def afterBadAddress : HttpServer :=
  { running := false
    serverHandler := some "."
    serverAddr := ""
    serverGen := 0
    certFile := ""
    keyFile := "" }

/-- A request whose client address is a bracketed IPv6 host and port. -/
def reqIPv6 : Request :=
  { remoteAddr := "[::1]:8080"
    method := "GET"
    host := "example.com"
    urlPath := "/index.html" }

/-- First `Start` of a restart cycle on a fresh module. -/
def firstStart : Except GoError Unit × HttpServer × List Effect × Option ServeCall :=
  Start envPlain NewHttpServer

/-- `Stop` following `firstStart`. -/
def afterStop : Except GoError Unit × HttpServer × List Effect :=
  Stop envPlain firstStart.2.1

/-- Second `Start` of the restart cycle, after `afterStop`. -/
def secondStart : Except GoError Unit × HttpServer × List Effect × Option ServeCall :=
  Start envPlain afterStop.2.1

/-! Helper lemmas shared by the claim theorems. -/

/-- When `Configure` returns an error, the stored certificate and key path
fields, the running flag, and the server allocation are unchanged (the
handler and address fields may have been updated before the failure). -/
theorem configure_error_state (env : Env) (s : HttpServer) (e : GoError)
    (s' : HttpServer) (tr : List Effect)
    (h : Configure env s = (.error e, s', tr)) :
    s'.certFile = s.certFile ∧ s'.keyFile = s.keyFile ∧
    s'.running = s.running ∧ s'.serverGen = s.serverGen := by
  simp only [Configure] at h
  repeat' split at h
  all_goals simp_all
  all_goals obtain ⟨-, h2, -⟩ := h
  all_goals (try subst h2)
  all_goals simp_all

/-- Whatever `Configure` does, it never changes the running flag or the
server allocation. -/
theorem configure_preserves_run_gen (env : Env) (s : HttpServer) :
    (Configure env s).2.1.running = s.running ∧
    (Configure env s).2.1.serverGen = s.serverGen := by
  simp only [Configure]
  repeat' split
  all_goals simp_all

/-- When `Configure` succeeds, the stored certificate and key fields are
exactly the expanded certificate and key parameters, set together. -/
theorem configure_ok_certkey (env : Env) (s : HttpServer) (s' : HttpServer)
    (tr : List Effect) (certRaw cf keyRaw kf : String)
    (hc : env.certParam = .ok certRaw) (hcf : env.expand certRaw = .ok cf)
    (hk : env.keyParam = .ok keyRaw) (hkf : env.expand keyRaw = .ok kf)
    (h : Configure env s = (.ok (), s', tr)) :
    s'.certFile = cf ∧ s'.keyFile = kf := by
  simp only [Configure] at h
  repeat' split at h
  all_goals simp_all
  all_goals obtain ⟨h2, -⟩ := h
  all_goals (try subst h2)
  all_goals simp_all

/-- A successful `SetRunningTrue` only flips the running flag. -/
theorem setRunningTrue_ok (s s2 : HttpServer) (h : SetRunningTrue s = .ok s2) :
    s2 = { s with running := true } := by
  simp only [SetRunningTrue] at h
  split at h <;> simp_all

/-! Claim theorems. -/

/-- C3: on a Running module, `Configure` and `Start` both fail with the
already-started error and leave every module field (bound address, port,
handler, stored certificate/key paths, running flag) unchanged: the
resulting state is the input state, and no effect is performed. -/
theorem already_running_rejected (env : Env) (s : HttpServer)
    (h : s.running = true) :
    Configure env s = (.error .alreadyStarted, s, []) ∧
    Start env s = (.error .alreadyStarted, s, [], none) := by
  have hc : Configure env s = (.error .alreadyStarted, s, []) := by
    simp [Configure, h]
  refine ⟨hc, ?_⟩
  simp [Start, hc]

/-- Witness for C3 at a concrete Running state and environment. -/
theorem already_running_rejected_witness :
    Configure envPlain runningState = (.error .alreadyStarted, runningState, []) ∧
    Start envPlain runningState = (.error .alreadyStarted, runningState, [], none) :=
  already_running_rejected envPlain runningState rfl

/-- C9: the stored certificate and key path fields are assigned only
together, as the last step of `Configure`: every erroring `Configure`
leaves both unchanged, and every successful `Configure` sets both to the
expanded certificate and key parameters. -/
theorem certkey_assigned_together_last (env : Env) (s : HttpServer) :
    (∀ e s' tr, Configure env s = (.error e, s', tr) →
        s'.certFile = s.certFile ∧ s'.keyFile = s.keyFile) ∧
    (∀ s' tr certRaw cf keyRaw kf,
        env.certParam = .ok certRaw → env.expand certRaw = .ok cf →
        env.keyParam = .ok keyRaw → env.expand keyRaw = .ok kf →
        Configure env s = (.ok (), s', tr) →
        s'.certFile = cf ∧ s'.keyFile = kf) := by
  constructor
  · intro e s' tr h
    exact ⟨(configure_error_state env s e s' tr h).1,
           (configure_error_state env s e s' tr h).2.1⟩
  · intro s' tr certRaw cf keyRaw kf hc hcf hk hkf h
    exact configure_ok_certkey env s s' tr certRaw cf keyRaw kf hc hcf hk hkf h

/-- Witness for C9: a failing `Configure` at a concrete input leaves the
certificate and key fields at their previous (empty) values. -/
theorem certkey_assigned_together_last_witness :
    afterBadAddress.certFile = NewHttpServer.certFile ∧
    afterBadAddress.keyFile = NewHttpServer.keyFile :=
  (certkey_assigned_together_last envBadAddress NewHttpServer).1
    (.other "bad address") afterBadAddress [] (by decide)

/-- C4 as stated is false: a `Configure` call whose address-parameter read
fails returns that error, yet the server handler is no longer what it was
before the call (it was installed before the failing read). -/
theorem claim_no_partial_state_counterexample :
    (Configure envBadAddress NewHttpServer).1 = .error (.other "bad address") ∧
    NewHttpServer.serverHandler = none ∧
    (Configure envBadAddress NewHttpServer).2.1.serverHandler = some "." :=
  ⟨by decide, rfl, by decide⟩

/-- C4 amended: a `Configure` call that fails propagates the error
immediately and aborts, and the stored certificate/key path fields, the
running flag, and the server allocation are unchanged; the server's handler
(and, for failures after address/port resolution, its bound address) may
retain updates made before the failing step. -/
theorem configure_error_frame (env : Env) (s : HttpServer) (e : GoError)
    (s' : HttpServer) (tr : List Effect)
    (h : Configure env s = (.error e, s', tr)) :
    s'.certFile = s.certFile ∧ s'.keyFile = s.keyFile ∧
    s'.running = s.running ∧ s'.serverGen = s.serverGen :=
  configure_error_state env s e s' tr h

/-- Witness for amended C4 at the concrete failing environment. -/
theorem configure_error_frame_witness :
    afterBadAddress.certFile = NewHttpServer.certFile ∧
    afterBadAddress.keyFile = NewHttpServer.keyFile ∧
    afterBadAddress.running = NewHttpServer.running ∧
    afterBadAddress.serverGen = NewHttpServer.serverGen :=
  configure_error_frame envBadAddress NewHttpServer (.other "bad address")
    afterBadAddress [] (by decide)

/-- C10: `Stop` succeeds exactly when the module was Running; when it was
not, the state is unchanged and the already-stopped error is returned.  Any
error from the graceful-shutdown call is discarded: the result does not
depend on it. -/
theorem stop_error_iff_not_running (env : Env) (s : HttpServer) :
    ((Stop env s).1 = .ok () ↔ s.running = true) ∧
    (s.running = false → Stop env s = (.error .alreadyStopped, s, [])) := by
  cases hr : s.running <;> simp [Stop, hr]

/-- Witness for C10: `Stop` on a Running module succeeds even when the
shutdown call itself reports an error. -/
theorem stop_error_iff_not_running_witness :
    (Stop envShutdownErr runningState).1 = .ok () :=
  (stop_error_iff_not_running envShutdownErr runningState).1.mpr rfl

/-- C6: a successful `Stop` on a Running module transitions it to
not-Running and performs exactly one graceful shutdown request with a
60-second deadline followed by the deferred context cancellation that runs
when the callback returns. -/
theorem stop_graceful_shutdown (env : Env) (s : HttpServer)
    (h : s.running = true) :
    Stop env s = (.ok (), { s with running := false },
      [.shutdownGraceful 60 env.shutdownResult, .ctxCancel]) := by
  simp [Stop, h]

/-- Witness for C6 at a concrete Running state. -/
theorem stop_graceful_shutdown_witness :
    Stop envPlain runningState = (.ok (),
      { runningState with running := false },
      [.shutdownGraceful 60 none, .ctxCancel]) :=
  stop_graceful_shutdown envPlain runningState rfl

/-- C5: the worker goroutine's error check swallows a nil error and the
listener-closed-due-to-shutdown error (`http.ErrServerClosed`), and panics
on every other serve error. -/
theorem serve_error_policy (e : GoError) (h : e ≠ .serverClosed) :
    serveErrCheck none = .normal ∧
    serveErrCheck (some .serverClosed) = .normal ∧
    serveErrCheck (some e) = .panicked e := by
  refine ⟨rfl, rfl, ?_⟩
  simp [serveErrCheck, h]

/-- Witness for C5 at a concrete non-shutdown listen error. -/
theorem serve_error_policy_witness :
    serveErrCheck none = .normal ∧
    serveErrCheck (some .serverClosed) = .normal ∧
    serveErrCheck (some (.other "listen tcp: bind: address already in use")) =
      .panicked (.other "listen tcp: bind: address already in use") :=
  serve_error_policy (.other "listen tcp: bind: address already in use")
    (by decide)

/-- C8 as stated is false: in a concrete successful Start→Stop→Start cycle
the second `Start` runs with the same server allocation as the first — the
listener handle is not created fresh on every `Start`, it is the single
object allocated by `NewHttpServer` and reused across restarts. -/
theorem claim_fresh_listener_counterexample :
    firstStart.1 = .ok () ∧ afterStop.1 = .ok () ∧ secondStart.1 = .ok () ∧
    ¬(secondStart.2.1.serverGen ≠ firstStart.2.1.serverGen) :=
  ⟨by decide, by decide, by decide, by decide⟩

/-- C8 amended: the listener handle (the `*http.Server` object) is
allocated once, by `NewHttpServer`; `Configure`, `Start` and `Stop` never
replace it — `Stop` shuts it down but retains it, so the same object is
reused across restarts. -/
theorem listener_handle_allocated_once (env : Env) (s : HttpServer) :
    (Configure env s).2.1.serverGen = s.serverGen ∧
    (Start env s).2.1.serverGen = s.serverGen ∧
    (Stop env s).2.1.serverGen = s.serverGen := by
  refine ⟨(configure_preserves_run_gen env s).2, ?_, ?_⟩
  · simp only [Start]
    split
    · rename_i e s1 tr heq
      have hgen := (configure_preserves_run_gen env s).2
      rw [heq] at hgen
      simpa using hgen
    · rename_i u s1 tr heq
      have hgen := (configure_preserves_run_gen env s).2
      rw [heq] at hgen
      split
      · simpa using hgen
      · rename_i s2 heq2
        have h2 := setRunningTrue_ok s1 s2 heq2
        subst h2
        simpa using hgen
  · simp only [Stop]
    split <;> simp

/-- C2: TLS mode is true iff both stored certificate and key paths are
non-empty, and the goroutine spawned by a successful `Start` invokes the
TLS serve entry point (with the stored paths) exactly when TLS mode holds
on the started state, and the plain-HTTP entry point otherwise. -/
theorem tls_mode_selects_entry_point (env : Env) (s s1 : HttpServer)
    (tr : List Effect) (c : ServeCall)
    (h : Start env s = (.ok (), s1, tr, some c)) :
    (∀ t : HttpServer, t.isTLS = true ↔ (t.certFile ≠ "" ∧ t.keyFile ≠ "")) ∧
    c = (if s1.isTLS = true then
           .listenAndServeTLS s1.serverAddr s1.certFile s1.keyFile
         else .listenAndServe s1.serverAddr) := by
  constructor
  · intro t
    simp [HttpServer.isTLS, Bool.and_eq_true, bne_iff_ne]
  · have hc : c = workerServeCall s1 := by
      simp only [Start] at h
      split at h
      · simp_all
      · split at h
        · simp_all
        · simp_all
          obtain ⟨ha, -, hcL⟩ := h
          subst ha
          exact hcL.symm
    subst hc
    simp [workerServeCall]

/-- Witness for C2: the concrete plain-HTTP start selects `ListenAndServe`. -/
theorem tls_mode_selects_entry_point_witness :
    (∀ t : HttpServer, t.isTLS = true ↔ (t.certFile ≠ "" ∧ t.keyFile ≠ "")) ∧
    ServeCall.listenAndServe "192.168.1.2:80" =
      (if startedPlain.isTLS = true then
         .listenAndServeTLS startedPlain.serverAddr startedPlain.certFile
           startedPlain.keyFile
       else .listenAndServe startedPlain.serverAddr) :=
  tls_mode_selects_entry_point envPlain NewHttpServer startedPlain []
    (.listenAndServe "192.168.1.2:80") (by decide)

/-- C7 as stated is false: for a request whose client address is the
bracketed IPv6 `"[::1]:8080"`, the handler logs `"["` as the client field —
the text before the first colon — which is not the host portion (`"::1"`)
of that address. -/
theorem claim_host_portion_counterexample :
    (routerHandle (fun _ => (200 : Nat)) reqIPv6).1 =
      [.logInfo { client := "[", method := "GET", host := "example.com",
                  path := "/index.html" }] ∧
    specHostPortion "[::1]:8080" = "::1" ∧ ("[" : String) ≠ "::1" :=
  ⟨by decide, by decide, by decide⟩

/-- C7 amended: on every request, for every underlying file server and
every response type, the handler emits exactly one access-log line — whose
client field is the text of the client address before its first colon (the
host portion for IPv4 `host:port` addresses), together with the method, the
host header and the path — and returns the file server's response for that
request unchanged. -/
theorem access_log_per_request {α : Type} (fileServer : Request → α)
    (r : Request) :
    (routerHandle fileServer r).1 =
      [.logInfo { client := splitFirstColon r.remoteAddr, method := r.method,
                  host := r.host, path := r.urlPath }] ∧
    (routerHandle fileServer r).2 = fileServer r :=
  ⟨rfl, rfl⟩

/-- C1: certificate provisioning inside `Configure`, for resolved
certificate/key paths `cf`/`kf`: when both are empty nothing is
provisioned; when both are non-empty and either file is absent, the pair is
generated at exactly those paths (a profile-read or generation failure
aborts `Configure` with that error); when both are non-empty and both
files exist, generation is never invoked. -/
theorem certificate_provisioning (env : Env) (s : HttpServer)
    (p a : String) (port : Int) (certRaw cf keyRaw kf : String)
    (hrun : s.running = false)
    (hp : env.pathParam = .ok p) (ha : env.addressParam = .ok a)
    (hport : env.portParam = .ok port)
    (hc : env.certParam = .ok certRaw) (hcf : env.expand certRaw = .ok cf)
    (hk : env.keyParam = .ok keyRaw) (hkf : env.expand keyRaw = .ok kf) :
    (cf = "" ∧ kf = "" →
       (Configure env s).1 = .ok () ∧ (Configure env s).2.2 = []) ∧
    (cf ≠ "" → kf ≠ "" → (env.fsExists cf = false ∨ env.fsExists kf = false) →
       (∀ e, env.certConfig = .error e →
          (Configure env s).1 = .error e ∧ (Configure env s).2.2 = []) ∧
       (∀ cfg, env.certConfig = .ok cfg →
          (Configure env s).2.2 = [.generate cfg cf kf] ∧
          (∀ e, env.generate cfg cf kf = .error e →
             (Configure env s).1 = .error e) ∧
          (env.generate cfg cf kf = .ok () → (Configure env s).1 = .ok ()))) ∧
    (cf ≠ "" → kf ≠ "" → env.fsExists cf = true → env.fsExists kf = true →
       (Configure env s).1 = .ok () ∧ (Configure env s).2.2 = []) := by
  refine ⟨?_, ?_, ?_⟩
  · rintro ⟨h1, h2⟩
    subst h1; subst h2
    simp [Configure, hrun, hp, ha, hport, hc, hcf, hk, hkf]
  · intro h1 h2 hex
    refine ⟨fun e hcc => ?_, fun cfg hcc => ⟨?_, fun e hge => ?_, fun hge => ?_⟩⟩
    all_goals
      simp only [Configure, hrun, hp, ha, hport, hc, hcf, hk, hkf]
    all_goals
      repeat' split
    all_goals simp_all
  · intro h1 h2 hx1 hx2
    simp only [Configure, hrun, hp, ha, hport, hc, hcf, hk, hkf]
    repeat' split
    all_goals simp_all

/-- Witness for C1: the concrete TLS environment with both files missing
generates the pair at exactly the resolved paths. -/
theorem certificate_provisioning_witness :
    (("/tmp/c.pem" : String) = "" ∧ ("/tmp/k.pem" : String) = "" →
       (Configure envTLSGen NewHttpServer).1 = .ok () ∧
       (Configure envTLSGen NewHttpServer).2.2 = []) ∧
    (("/tmp/c.pem" : String) ≠ "" → ("/tmp/k.pem" : String) ≠ "" →
       (envTLSGen.fsExists "/tmp/c.pem" = false ∨
        envTLSGen.fsExists "/tmp/k.pem" = false) →
       (∀ e, envTLSGen.certConfig = .error e →
          (Configure envTLSGen NewHttpServer).1 = .error e ∧
          (Configure envTLSGen NewHttpServer).2.2 = []) ∧
       (∀ cfg, envTLSGen.certConfig = .ok cfg →
          (Configure envTLSGen NewHttpServer).2.2 =
            [.generate cfg "/tmp/c.pem" "/tmp/k.pem"] ∧
          (∀ e, envTLSGen.generate cfg "/tmp/c.pem" "/tmp/k.pem" = .error e →
             (Configure envTLSGen NewHttpServer).1 = .error e) ∧
          (envTLSGen.generate cfg "/tmp/c.pem" "/tmp/k.pem" = .ok () →
             (Configure envTLSGen NewHttpServer).1 = .ok ()))) ∧
    (("/tmp/c.pem" : String) ≠ "" → ("/tmp/k.pem" : String) ≠ "" →
       envTLSGen.fsExists "/tmp/c.pem" = true →
       envTLSGen.fsExists "/tmp/k.pem" = true →
       (Configure envTLSGen NewHttpServer).1 = .ok () ∧
       (Configure envTLSGen NewHttpServer).2.2 = []) :=
  certificate_provisioning envTLSGen NewHttpServer "." "192.168.1.2" 80
    "/tmp/c.pem" "/tmp/c.pem" "/tmp/k.pem" "/tmp/k.pem"
    rfl rfl rfl rfl rfl rfl rfl rfl

end HttpServerModule
